import Mathlib

/-!
Shallow embedding of the libsigrok Victor DMM driver
(src/hardware/victor-dmm/api.c) and proofs about its acquisition
state machine, transfer-completion handler, limit configuration and
session notifications.

Modelling conventions:
* `sr_dev_inst.status` is the tri-state `SR_ST_INACTIVE / SR_ST_ACTIVE /
  SR_ST_STOPPING` field of the device record.
* `dev_context` carries the fields of `struct dev_context` that the code in
  api.c reads or writes (`limit_msec`, `limit_samples`, `end_time`,
  `num_samples`).  The struct itself is declared in protocol.h, which is not
  part of the sources; the field widths are taken from api.c's own uses
  (`num_samples` and `limit_samples` are printed with PRIu64, so they are
  64-bit unsigned counters, modelled as `Nat` reduced mod 2^64 where the code
  increments them; times are `gint64`, modelled as `Int`).
* USB handles, pollfd arrays and session pointers are modelled by the
  observable facts the driver depends on: whether `devc->usb->devhdl` is
  non-NULL (`devhdl_open`), which packets were pushed to `sr_session_send`,
  whether a transfer was (re)submitted, and how often `g_free` ran on the
  transfer's receive buffer.
* Asynchronous completions and event-loop ticks are external events; the
  driver-level machine `step` dispatches a completion only while a transfer
  is outstanding, which is libusb's contract (a callback fires only for a
  submitted transfer).
-/

namespace VictorDMM

/-- The `SR_ST_*` device status values used by the driver. -/
inductive SrStatus where
  | SR_ST_INACTIVE
  | SR_ST_ACTIVE
  | SR_ST_STOPPING
deriving DecidableEq, Repr

/-- Return codes used by the driver (`SR_OK`, `SR_ERR`, `SR_ERR_ARG`,
`SR_ERR_MALLOC`). -/
inductive SrRet where
  | SR_OK
  | SR_ERR
  | SR_ERR_ARG
  | SR_ERR_MALLOC
deriving DecidableEq, Repr

/-- 2^64, the wrap-around modulus of the 64-bit unsigned counters. -/
def UINT64_CARD : Nat := 2 ^ 64

/-- The fields of `struct dev_context` that api.c reads or writes.
`limit_msec` and `limit_samples` are the configured budgets (0 = unset),
`end_time` the absolute deadline in monotonic milliseconds, `num_samples`
the completed-sample counter. -/
structure dev_context where
  limit_msec : Nat
  limit_samples : Nat
  end_time : Int
  num_samples : Nat
deriving DecidableEq, Repr

/-- `hw_scan` allocates each device context with `g_try_malloc0`, so every
field starts out zero. -/
def initial_dev_context : dev_context :=
  { limit_msec := 0, limit_samples := 0, end_time := 0, num_samples := 0 }

/-- The device record (`struct sr_dev_inst`) as the driver sees it: its
status field, whether `devc->usb->devhdl` is currently non-NULL, and its
private `dev_context`. -/
structure sr_dev_inst where
  status : SrStatus
  devhdl_open : Bool
  devc : dev_context
deriving DecidableEq, Repr

/-- libusb transfer completion statuses distinguished by api.c; all other
statuses take the driver's catch-all path and are collected in `other`. -/
inductive TransferStatus where
  | LIBUSB_TRANSFER_COMPLETED
  | LIBUSB_TRANSFER_NO_DEVICE
  | LIBUSB_TRANSFER_TIMED_OUT
  | LIBUSB_TRANSFER_ERROR
  | LIBUSB_TRANSFER_CANCELLED
  | other
deriving DecidableEq, Repr

/-- Hardware capability keys passed to `hw_dev_config_set`; `unknown`
stands for every integer key other than the ones the switch matches. -/
inductive Hwcap where
  | SR_HWCAP_LIMIT_MSEC
  | SR_HWCAP_LIMIT_SAMPLES
  | SR_HWCAP_MULTIMETER
  | SR_HWCAP_CONTINUOUS
  | unknown
deriving DecidableEq, Repr

/-- Packets the driver pushes to `sr_session_send`. -/
inductive Packet where
  | SR_DF_HEADER (feed_version : Nat)
  | SR_DF_META_ANALOG (num_probes : Nat)
  | SR_DF_END
deriving DecidableEq, Repr

/-- `hw_dev_acquisition_stop` (api.c:455-473): fails with `SR_ERR` when the
driver is uninitialized or the record is not `SR_ST_ACTIVE`; otherwise sets
the status to `SR_ST_STOPPING` and touches nothing else. -/
def hw_dev_acquisition_stop (initialized : Bool) (sdi : sr_dev_inst) :
    SrRet × sr_dev_inst :=
  if !initialized then
    (.SR_ERR, sdi)
  else if sdi.status ≠ .SR_ST_ACTIVE then
    (.SR_ERR, sdi)
  else
    (.SR_OK, { sdi with status := .SR_ST_STOPPING })

/-- `hw_dev_close` (api.c:212-232): no-op when the handle is already NULL;
otherwise releases the interface, closes the handle and sets the status to
`SR_ST_INACTIVE`. -/
def hw_dev_close (initialized : Bool) (sdi : sr_dev_inst) :
    SrRet × sr_dev_inst :=
  if !initialized then
    (.SR_ERR, sdi)
  else if !sdi.devhdl_open then
    (.SR_OK, sdi)
  else
    (.SR_OK, { sdi with devhdl_open := false, status := .SR_ST_INACTIVE })

/-- `hw_dev_config_set` (api.c:272-310).  `value` is the 64-bit value behind
the `void *`; `now` is `g_get_monotonic_time() / 1000` at the moment of the
call.  `SR_HWCAP_LIMIT_MSEC` stores the budget and derives the absolute
deadline `end_time = now + limit_msec` immediately;
`SR_HWCAP_LIMIT_SAMPLES` stores the sample budget; every other key falls to
the `default:` branch returning `SR_ERR_ARG` without mutating anything. -/
def hw_dev_config_set (initialized : Bool) (sdi : sr_dev_inst)
    (hwcap : Hwcap) (value : Nat) (now : Int) : SrRet × sr_dev_inst :=
  if !initialized then
    (.SR_ERR, sdi)
  else if sdi.status ≠ .SR_ST_ACTIVE then
    (.SR_ERR, sdi)
  else
    match hwcap with
    | .SR_HWCAP_LIMIT_MSEC =>
        (.SR_OK, { sdi with devc := { sdi.devc with
            limit_msec := value, end_time := now + (value : Int) } })
    | .SR_HWCAP_LIMIT_SAMPLES =>
        (.SR_OK, { sdi with devc := { sdi.devc with
            limit_samples := value } })
    | _ => (.SR_ERR_ARG, sdi)

/-- Which branch of `receive_transfer` executed `g_free(transfer->buffer)`:
the resubmission-failure branch (api.c:342-343) or the terminal cleanup
branch taken when the status is no longer active (api.c:349-350). -/
inductive FreeSite where
  | onResubmitFailure
  | onStoppingCleanup
deriving DecidableEq, Repr

/-- Observable result of one invocation of `receive_transfer`. -/
structure TransferStep where
  /-- the device record after the invocation -/
  sdi : sr_dev_inst
  /-- how many times `g_free(transfer->buffer)` ran during the invocation -/
  bufferFrees : Nat
  /-- whether `libusb_free_transfer(transfer)` ran -/
  transferFreed : Bool
  /-- whether `libusb_submit_transfer(transfer)` resubmitted the request -/
  resubmitted : Bool
  /-- which branch freed the buffer, if any (ghost observation) -/
  freeSite : Option FreeSite
  /-- `sdi->status` at the resubmit-or-cleanup branch point (api.c:338),
  after outcome handling (ghost observation) -/
  statusAtBranch : SrStatus
deriving DecidableEq, Repr

/-- `receive_transfer` (api.c:312-353), the single completion callback.
`tstatus`/`actual_length` describe the completed transfer; `submitOk` is
whether `libusb_submit_transfer` succeeds should the handler resubmit.
On `NO_DEVICE` it calls `hw_dev_acquisition_stop`; on `COMPLETED` with a
full 14-byte payload it increments `num_samples` (a 64-bit counter) and,
when a sample limit is set and reached, calls `hw_dev_acquisition_stop`;
every other status is a no-op tick.  Afterwards, if the status is still
`SR_ST_ACTIVE` it resubmits the same request, freeing the transfer and its
buffer and forcing a stop if resubmission fails; otherwise this was the
last transfer and it frees the transfer and its buffer.

The outcome-handling phase (api.c:320-336) is factored out as
`outcome_state`: the device record after the status dispatch, counter
increment and sample-limit check, before the resubmit-or-cleanup branch. -/
def outcome_state (initialized : Bool) (sdi : sr_dev_inst)
    (tstatus : TransferStatus) (actual_length : Nat) : sr_dev_inst :=
  if tstatus = .LIBUSB_TRANSFER_NO_DEVICE then
    (hw_dev_acquisition_stop initialized sdi).2
  else if tstatus = .LIBUSB_TRANSFER_COMPLETED then
    if actual_length = 14 then
      let devc1 := { sdi.devc with
        num_samples := (sdi.devc.num_samples + 1) % UINT64_CARD }
      let sdi1 := { sdi with devc := devc1 }
      if devc1.limit_samples ≠ 0 then
        if devc1.num_samples ≥ devc1.limit_samples then
          (hw_dev_acquisition_stop initialized sdi1).2
        else sdi1
      else sdi1
    else sdi
  else sdi

def receive_transfer (initialized : Bool) (sdi : sr_dev_inst)
    (tstatus : TransferStatus) (actual_length : Nat) (submitOk : Bool) :
    TransferStep :=
  let sdi1 := outcome_state initialized sdi tstatus actual_length
  if sdi1.status = .SR_ST_ACTIVE then
    if submitOk then
      { sdi := sdi1, bufferFrees := 0, transferFreed := false,
        resubmitted := true, freeSite := none,
        statusAtBranch := sdi1.status }
    else
      { sdi := (hw_dev_acquisition_stop initialized sdi1).2,
        bufferFrees := 1, transferFreed := true, resubmitted := false,
        freeSite := some .onResubmitFailure, statusAtBranch := sdi1.status }
  else
    { sdi := sdi1, bufferFrees := 1, transferFreed := true,
      resubmitted := false, freeSite := some .onStoppingCleanup,
      statusAtBranch := sdi1.status }

/-- Observable result of one invocation of `handle_events`. -/
structure TickStep where
  sdi : sr_dev_inst
  /-- packets pushed to `sr_session_send` during the tick -/
  packets : List Packet
  /-- whether `sr_source_remove` deregistered the readiness sources -/
  sourcesRemoved : Bool
deriving DecidableEq, Repr

/-- `handle_events` (api.c:355-390), the per-tick callback.  If a time limit
is set and `now` has passed `end_time` it calls `hw_dev_acquisition_stop`.
Then, if the status is `SR_ST_STOPPING`, it removes the readiness sources,
closes the device (`hw_dev_close`) and sends one `SR_DF_END` packet.
(The trailing `libusb_handle_events_timeout_completed` merely dispatches
pending completions, which appear as separate `Event.complete` steps.)

The deadline check (api.c:370-374) is factored out as `deadline_state`. -/
def deadline_state (initialized : Bool) (sdi : sr_dev_inst) (now : Int) :
    sr_dev_inst :=
  if sdi.devc.limit_msec ≠ 0 then
    if now > sdi.devc.end_time then
      (hw_dev_acquisition_stop initialized sdi).2
    else sdi
  else sdi

def handle_events (initialized : Bool) (sdi : sr_dev_inst) (now : Int) :
    TickStep :=
  let sdi1 := deadline_state initialized sdi now
  if sdi1.status = .SR_ST_STOPPING then
    { sdi := (hw_dev_close initialized sdi1).2,
      packets := [.SR_DF_END], sourcesRemoved := true }
  else
    { sdi := sdi1, packets := [], sourcesRemoved := false }

/-- Observable result of `hw_dev_acquisition_start`. -/
structure StartStep where
  ret : SrRet
  sdi : sr_dev_inst
  /-- packets pushed to `sr_session_send`, in order -/
  packets : List Packet
  /-- whether a transfer was submitted and left outstanding -/
  submitted : Bool
  /-- whether the freshly allocated 14-byte buffer was freed (the
  submission-failure branch, api.c:447-448) -/
  bufFreed : Bool
deriving DecidableEq, Repr

/-- `hw_dev_acquisition_start` (api.c:392-453).  After the `di->priv`
initialization check it unconditionally sends `SR_DF_HEADER`
(feed_version 1) and `SR_DF_META_ANALOG` (num_probes 1), registers the
pollfds, allocates a 14-byte buffer and submits the first interrupt
transfer; if the submission fails it frees the transfer and the buffer and
returns `SR_ERR`.  It performs no status check, no outstanding-transfer
check, and writes neither `num_samples` nor `end_time` nor the limits. -/
def hw_dev_acquisition_start (initialized : Bool) (sdi : sr_dev_inst)
    (submitOk : Bool) : StartStep :=
  if !initialized then
    { ret := .SR_ERR, sdi := sdi, packets := [], submitted := false,
      bufFreed := false }
  else if submitOk then
    { ret := .SR_OK, sdi := sdi,
      packets := [.SR_DF_HEADER 1, .SR_DF_META_ANALOG 1],
      submitted := true, bufFreed := false }
  else
    { ret := .SR_ERR, sdi := sdi,
      packets := [.SR_DF_HEADER 1, .SR_DF_META_ANALOG 1],
      submitted := false, bufFreed := true }

/-- External events driving an acquisition: a completion of the outstanding
transfer (with its libusb status, its `actual_length` and whether a
resubmission attempt would succeed), or an event-loop tick at monotonic
time `now`. -/
inductive Event where
  | complete (tstatus : TransferStatus) (actual_length : Nat) (submitOk : Bool)
  | tick (now : Int)
deriving DecidableEq, Repr

/-- Driver-level acquisition state: the device record, whether a transfer is
outstanding, the cumulative number of `g_free` calls on the transfer
buffer (the driver reuses one buffer across resubmissions of the same
request), and the packets sent to the session so far. -/
structure AcqState where
  sdi : sr_dev_inst
  transferOutstanding : Bool
  bufferFrees : Nat
  trace : List Packet
deriving DecidableEq, Repr

/-- One driver step.  A tick always runs `handle_events`; a completion runs
`receive_transfer`, but only while a transfer is outstanding — libusb
invokes the callback only for a submitted request. -/
def step (initialized : Bool) (s : AcqState) (e : Event) : AcqState :=
  match e with
  | .tick now =>
      let t := handle_events initialized s.sdi now
      { s with sdi := t.sdi, trace := s.trace ++ t.packets }
  | .complete tstatus len submitOk =>
      if s.transferOutstanding then
        let r := receive_transfer initialized s.sdi tstatus len submitOk
        { sdi := r.sdi, transferOutstanding := r.resubmitted,
          bufferFrees := s.bufferFrees + r.bufferFrees, trace := s.trace }
      else s

/-- Run the driver over a list of external events. -/
def runAcq (initialized : Bool) (s : AcqState) (es : List Event) : AcqState :=
  es.foldl (step initialized) s

/-- The acquisition state right after a successful
`hw_dev_acquisition_start` on device record `sdi`: the header and metadata
packets have been sent, one transfer is outstanding, its buffer not yet
freed. -/
def startedState (sdi : sr_dev_inst) : AcqState :=
  { sdi := sdi, transferOutstanding := true, bufferFrees := 0,
    trace := (hw_dev_acquisition_start true sdi true).packets }

/-- An event is benign when it cannot trigger the two non-budget stop
causes: the completion is not a device-removal and resubmission succeeds. -/
def benignEvent : Event → Prop
  | .complete t _ ok => t ≠ .LIBUSB_TRANSFER_NO_DEVICE ∧ ok = true
  | .tick _ => True

/-- A freshly opened device record: Active, handle open, zeroed context. -/
def activeRecord : sr_dev_inst :=
  { status := .SR_ST_ACTIVE, devhdl_open := true, devc := initial_dev_context }

/-- A device record that was never opened: Inactive, handle closed. -/
def inactiveRecord : sr_dev_inst :=
  { status := .SR_ST_INACTIVE, devhdl_open := false,
    devc := initial_dev_context }

/-- A device record on which a stop has been requested. -/
def stoppingRecord : sr_dev_inst :=
  { status := .SR_ST_STOPPING, devhdl_open := true,
    devc := initial_dev_context }

/-- A device record left over from a previous acquisition: Active again,
with 5 completed samples and a stale deadline of 777 from the earlier
run. -/
def staleRecord : sr_dev_inst :=
  { status := .SR_ST_ACTIVE, devhdl_open := true,
    devc := { limit_msec := 0, limit_samples := 0, end_time := 777,
              num_samples := 5 } }

/-- A freshly opened device record with a sample budget of 3. -/
def budget3Record : sr_dev_inst :=
  { status := .SR_ST_ACTIVE, devhdl_open := true,
    devc := { limit_msec := 0, limit_samples := 3, end_time := 0,
              num_samples := 0 } }

/-! ### Helper lemmas -/

lemma hw_dev_acquisition_stop_eq (i : Bool) (s : sr_dev_inst) :
    hw_dev_acquisition_stop i s =
      if i = true ∧ s.status = .SR_ST_ACTIVE then
        (.SR_OK, { s with status := .SR_ST_STOPPING })
      else (.SR_ERR, s) := by
  cases i <;> unfold hw_dev_acquisition_stop <;>
    by_cases hs : s.status = .SR_ST_ACTIVE <;> simp [hs]

lemma stop_snd_devc (i : Bool) (s : sr_dev_inst) :
    ((hw_dev_acquisition_stop i s).2).devc = s.devc := by
  rw [hw_dev_acquisition_stop_eq]; split <;> rfl

lemma stop_snd_devhdl (i : Bool) (s : sr_dev_inst) :
    ((hw_dev_acquisition_stop i s).2).devhdl_open = s.devhdl_open := by
  rw [hw_dev_acquisition_stop_eq]; split <;> rfl

lemma stop_snd_status_or (i : Bool) (s : sr_dev_inst) :
    ((hw_dev_acquisition_stop i s).2).status = s.status ∨
      (s.status = .SR_ST_ACTIVE ∧
        ((hw_dev_acquisition_stop i s).2).status = .SR_ST_STOPPING) := by
  rw [hw_dev_acquisition_stop_eq]
  by_cases h : i = true ∧ s.status = .SR_ST_ACTIVE
  · exact Or.inr ⟨h.2, by simp [h]⟩
  · exact Or.inl (by simp [h])

lemma stop_snd_of_not_active (i : Bool) (s : sr_dev_inst)
    (h : s.status ≠ .SR_ST_ACTIVE) :
    (hw_dev_acquisition_stop i s).2 = s := by
  rw [hw_dev_acquisition_stop_eq]; simp [h]

lemma stop_snd_active (s : sr_dev_inst) (h : s.status = .SR_ST_ACTIVE) :
    (hw_dev_acquisition_stop true s).2 = { s with status := .SR_ST_STOPPING } := by
  rw [hw_dev_acquisition_stop_eq]; simp [h]

lemma hw_dev_close_eq (i : Bool) (s : sr_dev_inst) :
    hw_dev_close i s =
      if i = true then
        if s.devhdl_open then
          (.SR_OK, { s with devhdl_open := false, status := .SR_ST_INACTIVE })
        else (.SR_OK, s)
      else (.SR_ERR, s) := by
  cases i <;> unfold hw_dev_close <;> cases h : s.devhdl_open <;> simp [h]

lemma close_snd_devc (i : Bool) (s : sr_dev_inst) :
    ((hw_dev_close i s).2).devc = s.devc := by
  rw [hw_dev_close_eq]; split <;> [skip; rfl]; split <;> rfl

lemma outcome_state_devc (i : Bool) (s : sr_dev_inst)
    (t : TransferStatus) (l : Nat) :
    (outcome_state i s t l).devc = { s.devc with
      num_samples :=
        if t = .LIBUSB_TRANSFER_COMPLETED ∧ l = 14 then
          (s.devc.num_samples + 1) % UINT64_CARD
        else s.devc.num_samples } := by
  unfold outcome_state
  dsimp only
  split_ifs <;> simp_all [stop_snd_devc]

lemma outcome_state_devhdl (i : Bool) (s : sr_dev_inst)
    (t : TransferStatus) (l : Nat) :
    (outcome_state i s t l).devhdl_open = s.devhdl_open := by
  unfold outcome_state
  dsimp only
  split_ifs <;> simp_all [stop_snd_devhdl]

lemma outcome_state_status_or (i : Bool) (s : sr_dev_inst)
    (t : TransferStatus) (l : Nat) :
    (outcome_state i s t l).status = s.status ∨
      (s.status = .SR_ST_ACTIVE ∧
        (outcome_state i s t l).status = .SR_ST_STOPPING) := by
  unfold outcome_state
  dsimp only
  split_ifs <;>
    first
      | exact Or.inl rfl
      | simpa using stop_snd_status_or i _

lemma outcome_state_status_of_not_active (i : Bool) (s : sr_dev_inst)
    (t : TransferStatus) (l : Nat) (h : s.status ≠ .SR_ST_ACTIVE) :
    (outcome_state i s t l).status = s.status := by
  rcases outcome_state_status_or i s t l with h1 | h2
  · exact h1
  · exact absurd h2.1 h

lemma receive_transfer_branches (i : Bool) (s : sr_dev_inst)
    (t : TransferStatus) (l : Nat) (ok : Bool) :
    receive_transfer i s t l ok =
      (if (outcome_state i s t l).status = .SR_ST_ACTIVE then
        (if ok then
          { sdi := outcome_state i s t l, bufferFrees := 0,
            transferFreed := false, resubmitted := true, freeSite := none,
            statusAtBranch := (outcome_state i s t l).status }
        else
          { sdi := (hw_dev_acquisition_stop i (outcome_state i s t l)).2,
            bufferFrees := 1, transferFreed := true, resubmitted := false,
            freeSite := some .onResubmitFailure,
            statusAtBranch := (outcome_state i s t l).status })
      else
        { sdi := outcome_state i s t l, bufferFrees := 1,
          transferFreed := true, resubmitted := false,
          freeSite := some .onStoppingCleanup,
          statusAtBranch := (outcome_state i s t l).status }) := by
  unfold receive_transfer
  split_ifs <;> simp_all

lemma receive_transfer_sdi_devc (i : Bool) (s : sr_dev_inst)
    (t : TransferStatus) (l : Nat) (ok : Bool) :
    (receive_transfer i s t l ok).sdi.devc = (outcome_state i s t l).devc := by
  rw [receive_transfer_branches]
  split_ifs <;> simp [stop_snd_devc]

lemma receive_transfer_sdi_devhdl (i : Bool) (s : sr_dev_inst)
    (t : TransferStatus) (l : Nat) (ok : Bool) :
    (receive_transfer i s t l ok).sdi.devhdl_open = s.devhdl_open := by
  rw [receive_transfer_branches]
  split_ifs <;> simp [stop_snd_devhdl, outcome_state_devhdl]

lemma receive_transfer_status_or (i : Bool) (s : sr_dev_inst)
    (t : TransferStatus) (l : Nat) (ok : Bool) :
    (receive_transfer i s t l ok).sdi.status = s.status ∨
      (s.status = .SR_ST_ACTIVE ∧
        (receive_transfer i s t l ok).sdi.status = .SR_ST_STOPPING) := by
  rw [receive_transfer_branches]
  rcases outcome_state_status_or i s t l with h | h
  · split_ifs with h1 h2
    · exact Or.inl (h ▸ rfl)
    · rcases stop_snd_status_or i (outcome_state i s t l) with h3 | h3
      · exact Or.inl (by rw [h3, h])
      · exact Or.inr ⟨by rw [← h, h3.1], h3.2⟩
    · exact Or.inl (h ▸ rfl)
  · split_ifs with h1 h2
    · exact absurd h1 (by rw [h.2]; intro hc; cases hc)
    · exact absurd h1 (by rw [h.2]; intro hc; cases hc)
    · exact Or.inr ⟨h.1, h.2⟩

lemma receive_transfer_frees_resub (i : Bool) (s : sr_dev_inst)
    (t : TransferStatus) (l : Nat) (ok : Bool) :
    (receive_transfer i s t l ok).bufferFrees =
      (if (receive_transfer i s t l ok).resubmitted then 0 else 1) := by
  rw [receive_transfer_branches]
  split_ifs <;> simp_all

lemma receive_transfer_not_active_resub (i : Bool) (s : sr_dev_inst)
    (t : TransferStatus) (l : Nat) (ok : Bool)
    (h : (outcome_state i s t l).status ≠ .SR_ST_ACTIVE) :
    (receive_transfer i s t l ok).resubmitted = false := by
  rw [receive_transfer_branches]
  simp [h]

lemma handle_events_branches (i : Bool) (s : sr_dev_inst) (now : Int) :
    handle_events i s now =
      (if (deadline_state i s now).status = .SR_ST_STOPPING then
        { sdi := (hw_dev_close i (deadline_state i s now)).2,
          packets := [.SR_DF_END], sourcesRemoved := true }
      else
        { sdi := deadline_state i s now, packets := [],
          sourcesRemoved := false }) := rfl

lemma deadline_state_devc (i : Bool) (s : sr_dev_inst) (now : Int) :
    (deadline_state i s now).devc = s.devc := by
  unfold deadline_state
  split_ifs <;> simp [stop_snd_devc]

lemma deadline_state_devhdl (i : Bool) (s : sr_dev_inst) (now : Int) :
    (deadline_state i s now).devhdl_open = s.devhdl_open := by
  unfold deadline_state
  split_ifs <;> simp [stop_snd_devhdl]

lemma deadline_state_status_or (i : Bool) (s : sr_dev_inst) (now : Int) :
    (deadline_state i s now).status = s.status ∨
      (s.status = .SR_ST_ACTIVE ∧
        (deadline_state i s now).status = .SR_ST_STOPPING) := by
  unfold deadline_state
  split_ifs <;>
    first
      | exact Or.inl rfl
      | simpa using stop_snd_status_or i s

lemma handle_events_sdi_devc (i : Bool) (s : sr_dev_inst) (now : Int) :
    (handle_events i s now).sdi.devc = s.devc := by
  rw [handle_events_branches]
  split_ifs <;> simp [close_snd_devc, deadline_state_devc]

lemma runAcq_nil (i : Bool) (s : AcqState) : runAcq i s [] = s := rfl

lemma runAcq_cons (i : Bool) (s : AcqState) (e : Event) (es : List Event) :
    runAcq i s (e :: es) = runAcq i (step i s e) es := rfl

lemma runAcq_inv (i : Bool) (P : AcqState → Prop)
    (hstep : ∀ s e, P s → P (step i s e)) :
    ∀ (es : List Event) (s : AcqState), P s → P (runAcq i s es) := by
  intro es
  induction es with
  | nil => intro s hs; exact hs
  | cons e es ih => intro s hs; exact ih _ (hstep s e hs)

lemma step_tick (i : Bool) (s : AcqState) (now : Int) :
    step i s (.tick now) =
      { s with
          sdi := (handle_events i s.sdi now).sdi,
          trace := s.trace ++ (handle_events i s.sdi now).packets } := rfl

lemma step_complete_outstanding (i : Bool) (s : AcqState)
    (t : TransferStatus) (l : Nat) (ok : Bool)
    (h : s.transferOutstanding = true) :
    step i s (.complete t l ok) =
      { sdi := (receive_transfer i s.sdi t l ok).sdi,
        transferOutstanding := (receive_transfer i s.sdi t l ok).resubmitted,
        bufferFrees :=
          s.bufferFrees + (receive_transfer i s.sdi t l ok).bufferFrees,
        trace := s.trace } := by
  unfold step
  simp [h]

lemma step_complete_done (i : Bool) (s : AcqState)
    (t : TransferStatus) (l : Nat) (ok : Bool)
    (h : s.transferOutstanding = false) :
    step i s (.complete t l ok) = s := by
  unfold step
  simp [h]

lemma start_sdi (i : Bool) (s : sr_dev_inst) (ok : Bool) :
    (hw_dev_acquisition_start i s ok).sdi = s := by
  unfold hw_dev_acquisition_start
  split_ifs <;> rfl

lemma config_set_snd_num (i : Bool) (s : sr_dev_inst) (cap : Hwcap)
    (v : Nat) (now : Int) :
    ((hw_dev_config_set i s cap v now).2).devc.num_samples =
      s.devc.num_samples := by
  unfold hw_dev_config_set
  split_ifs <;> first | rfl | (cases cap <;> rfl)

lemma outcome_state_completed14_eq (i : Bool) (s : sr_dev_inst) :
    outcome_state i s .LIBUSB_TRANSFER_COMPLETED 14 =
      (if s.devc.limit_samples ≠ 0 ∧
          (s.devc.num_samples + 1) % UINT64_CARD ≥ s.devc.limit_samples then
        (hw_dev_acquisition_stop i { s with devc := { s.devc with
          num_samples := (s.devc.num_samples + 1) % UINT64_CARD } }).2
      else
        { s with devc := { s.devc with
          num_samples := (s.devc.num_samples + 1) % UINT64_CARD } }) := by
  unfold outcome_state
  dsimp only
  split_ifs <;> simp_all

lemma outcome_state_limit_hit (s : sr_dev_inst)
    (hlim : s.devc.limit_samples ≠ 0)
    (hge : (s.devc.num_samples + 1) % UINT64_CARD ≥ s.devc.limit_samples) :
    (outcome_state true s .LIBUSB_TRANSFER_COMPLETED 14).status ≠
      .SR_ST_ACTIVE := by
  rw [outcome_state_completed14_eq]
  rw [if_pos ⟨hlim, hge⟩]
  by_cases hA : s.status = .SR_ST_ACTIVE
  · rw [stop_snd_active _ (by simpa using hA)]
    intro hc; cases hc
  · rw [stop_snd_of_not_active _ _ (by simpa using hA)]
    simpa using hA

lemma outcome_state_zero_limit_status (i : Bool) (s : sr_dev_inst)
    (t : TransferStatus) (l : Nat) (h0s : s.devc.limit_samples = 0)
    (ht : t ≠ .LIBUSB_TRANSFER_NO_DEVICE) :
    (outcome_state i s t l).status = s.status := by
  unfold outcome_state
  dsimp only
  split_ifs <;> simp_all

lemma runAcq_inv_filtered (i : Bool) (P : AcqState → Prop)
    (Q : Event → Prop) (hstep : ∀ s e, Q e → P s → P (step i s e)) :
    ∀ (es : List Event), (∀ e ∈ es, Q e) →
      ∀ (s : AcqState), P s → P (runAcq i s es) := by
  intro es
  induction es with
  | nil => intro _ s hs; exact hs
  | cons e es ih =>
      intro hq s hs
      exact ih (fun x hx => hq x (List.mem_cons_of_mem e hx)) _
        (hstep s e (hq e (List.mem_cons_self e es)) hs)

/-! ### Claim theorems -/

/-- C7: `requestStop` (`hw_dev_acquisition_stop`), called while the device
status is Active, sets the status to Stopping and changes nothing else —
the USB handle stays as it was and the device context (limits, counter,
deadline) is untouched; called when the status is not Active, or before
initialization, it fails with `SR_ERR` and leaves all state unchanged. -/
theorem C7_request_stop_frame (i : Bool) (sdi : sr_dev_inst) :
    (i = true → sdi.status = .SR_ST_ACTIVE →
      hw_dev_acquisition_stop i sdi =
        (.SR_OK, { sdi with status := .SR_ST_STOPPING })) ∧
    (sdi.status ≠ .SR_ST_ACTIVE →
      hw_dev_acquisition_stop i sdi = (.SR_ERR, sdi)) ∧
    (i = false → hw_dev_acquisition_stop i sdi = (.SR_ERR, sdi)) := by
  refine ⟨fun hi hA => ?_, fun hA => ?_, fun hi => ?_⟩ <;>
    rw [hw_dev_acquisition_stop_eq] <;> simp_all

/-- Witness for C7 at concrete records. -/
theorem C7_request_stop_frame_witness :
    hw_dev_acquisition_stop true activeRecord =
      (.SR_OK, { activeRecord with status := .SR_ST_STOPPING }) ∧
    hw_dev_acquisition_stop true inactiveRecord = (.SR_ERR, inactiveRecord) :=
  ⟨(C7_request_stop_frame true activeRecord).1 rfl rfl,
   (C7_request_stop_frame true inactiveRecord).2.1 (by decide)⟩

/-- C10: `hw_dev_config_set` with any capability other than
`SR_HWCAP_LIMIT_MSEC`/`SR_HWCAP_LIMIT_SAMPLES` returns `SR_ERR_ARG` and
leaves the record (both stored limits and the deadline) unchanged;
when the driver is uninitialized or the device is not Active it returns
`SR_ERR` and modifies nothing. -/
theorem C10_config_set_error_atomic (i : Bool) (sdi : sr_dev_inst)
    (cap : Hwcap) (value : Nat) (now : Int) :
    (i = false → hw_dev_config_set i sdi cap value now = (.SR_ERR, sdi)) ∧
    (sdi.status ≠ .SR_ST_ACTIVE →
      hw_dev_config_set i sdi cap value now = (.SR_ERR, sdi)) ∧
    (cap ≠ .SR_HWCAP_LIMIT_MSEC → cap ≠ .SR_HWCAP_LIMIT_SAMPLES →
      i = true → sdi.status = .SR_ST_ACTIVE →
      hw_dev_config_set i sdi cap value now = (.SR_ERR_ARG, sdi)) := by
  refine ⟨fun hi => ?_, fun hA => ?_, fun h1 h2 hi hA => ?_⟩ <;>
    unfold hw_dev_config_set <;> cases cap <;> simp_all

/-- Witness for C10 at concrete records. -/
theorem C10_config_set_error_atomic_witness :
    hw_dev_config_set true activeRecord .SR_HWCAP_MULTIMETER 9 4 =
      (.SR_ERR_ARG, activeRecord) ∧
    hw_dev_config_set true inactiveRecord .SR_HWCAP_LIMIT_MSEC 9 4 =
      (.SR_ERR, inactiveRecord) ∧
    hw_dev_config_set false activeRecord .SR_HWCAP_LIMIT_MSEC 9 4 =
      (.SR_ERR, activeRecord) :=
  ⟨(C10_config_set_error_atomic true activeRecord .SR_HWCAP_MULTIMETER 9
      4).2.2 (by decide) (by decide) rfl rfl,
   (C10_config_set_error_atomic true inactiveRecord .SR_HWCAP_LIMIT_MSEC 9
      4).2.1 (by decide),
   (C10_config_set_error_atomic false activeRecord .SR_HWCAP_LIMIT_MSEC 9
      4).1 rfl⟩

/-- C2 counterexample: `hw_dev_acquisition_start` does not require the
record's status to be Active and never fails with an already-running
error: called on an Inactive record it still returns `SR_OK` and submits
a transfer. -/
theorem C2_counterexample :
    inactiveRecord.status ≠ .SR_ST_ACTIVE ∧
    (hw_dev_acquisition_start true inactiveRecord true).ret = .SR_OK ∧
    (hw_dev_acquisition_start true inactiveRecord true).submitted = true := by
  decide

/-- C2 (amended): `start` checks only that the driver is initialized; it
performs no device-status check and no outstanding-transfer check, never
reports an already-running error, and leaves the device record unchanged:
it succeeds (submitting a transfer) exactly when the driver is initialized
and the USB submission succeeds, regardless of the record's status. -/
theorem C2_amended_start_unchecked (i : Bool) (sdi : sr_dev_inst)
    (ok : Bool) :
    (hw_dev_acquisition_start i sdi ok).sdi = sdi ∧
    ((hw_dev_acquisition_start i sdi ok).ret = .SR_OK ↔
      (i = true ∧ ok = true)) ∧
    ((hw_dev_acquisition_start i sdi ok).submitted = (i && ok)) ∧
    (∀ st : SrStatus,
      (hw_dev_acquisition_start i { sdi with status := st } ok).ret =
        (hw_dev_acquisition_start i sdi ok).ret ∧
      (hw_dev_acquisition_start i { sdi with status := st } ok).submitted =
        (hw_dev_acquisition_start i sdi ok).submitted) := by
  unfold hw_dev_acquisition_start
  cases i <;> cases ok <;> simp

/-- C3 counterexample: starting a second acquisition on a record left over
from a previous run (5 completed samples, stale deadline 777) succeeds
without resetting the counter to zero or the deadline to unset. -/
theorem C3_counterexample :
    (hw_dev_acquisition_start true staleRecord true).ret = .SR_OK ∧
    (hw_dev_acquisition_start true staleRecord true).sdi.devc.num_samples =
      5 ∧
    (hw_dev_acquisition_start true staleRecord true).sdi.devc.end_time =
      777 ∧
    staleRecord.devc.num_samples ≠ 0 := by
  decide

/-- C3 (amended): the completed-sample counter and the deadline are
zero-initialized when the device record is created during scan
(`g_try_malloc0`), and the counter is never decremented by any operation —
but `start` does not reset them: a second acquisition on the same record
resumes counting from the previous total. -/
theorem C3_amended_no_reset (i : Bool) (sdi : sr_dev_inst)
    (t : TransferStatus) (l : Nat) (ok : Bool)
    (h : sdi.devc.num_samples + 1 < UINT64_CARD) :
    initial_dev_context.num_samples = 0 ∧
    initial_dev_context.end_time = 0 ∧
    (hw_dev_acquisition_start i sdi ok).sdi = sdi ∧
    sdi.devc.num_samples ≤
      (receive_transfer i sdi t l ok).sdi.devc.num_samples ∧
    (∀ now, (handle_events i sdi now).sdi.devc.num_samples =
      sdi.devc.num_samples) ∧
    ((hw_dev_acquisition_stop i sdi).2.devc.num_samples =
      sdi.devc.num_samples) ∧
    (∀ cap v now, ((hw_dev_config_set i sdi cap v now).2).devc.num_samples =
      sdi.devc.num_samples) := by
  refine ⟨rfl, rfl, start_sdi i sdi ok, ?_, fun now => ?_, ?_, ?_⟩
  · rw [receive_transfer_sdi_devc, outcome_state_devc]
    dsimp only
    split_ifs with hc
    · rw [Nat.mod_eq_of_lt h]; exact Nat.le_succ _
    · exact le_refl _
  · rw [handle_events_sdi_devc]
  · rw [stop_snd_devc]
  · exact fun cap v now => config_set_snd_num i sdi cap v now

/-- Witness for C3's amended theorem at a concrete record. -/
theorem C3_amended_no_reset_witness :
    staleRecord.devc.num_samples ≤
      (receive_transfer true staleRecord .LIBUSB_TRANSFER_TIMED_OUT 0
        true).sdi.devc.num_samples :=
  (C3_amended_no_reset true staleRecord .LIBUSB_TRANSFER_TIMED_OUT 0 true
    (by decide)).2.2.2.1

/-- C4 counterexample: with the time limit configured at monotonic time 100
with budget 500, the deadline is already 600 before any acquisition starts,
and `start` leaves it at 600 — not at the acquisition's start time plus the
budget (an acquisition started at time 300 would then need deadline 800). -/
theorem C4_counterexample :
    ((hw_dev_config_set true activeRecord .SR_HWCAP_LIMIT_MSEC 500
      100).2).devc.end_time = 600 ∧
    (hw_dev_acquisition_start true
      ((hw_dev_config_set true activeRecord .SR_HWCAP_LIMIT_MSEC 500
        100).2) true).sdi.devc.end_time = 600 ∧
    (600 : Int) ≠ 300 + 500 := by
  decide

/-- C4 (amended): the absolute deadline is computed at the moment the time
limit is configured, as the configuration-time clock value plus the budget
(`end_time = now + limit_msec` inside `hw_dev_config_set`); `start` neither
computes nor modifies the deadline. -/
theorem C4_amended_deadline_at_config (i : Bool) (sdi : sr_dev_inst)
    (value : Nat) (now : Int) (ok : Bool) :
    (i = true → sdi.status = .SR_ST_ACTIVE →
      ((hw_dev_config_set i sdi .SR_HWCAP_LIMIT_MSEC value
        now).2).devc.end_time = now + (value : Int) ∧
      ((hw_dev_config_set i sdi .SR_HWCAP_LIMIT_MSEC value
        now).2).devc.limit_msec = value) ∧
    ((hw_dev_acquisition_start i sdi ok).sdi.devc.end_time =
      sdi.devc.end_time) := by
  constructor
  · intro hi hA
    subst hi
    unfold hw_dev_config_set
    simp [hA]
  · rw [start_sdi]

/-- Witness for C4's amended theorem at concrete inputs. -/
theorem C4_amended_deadline_at_config_witness :
    ((hw_dev_config_set true activeRecord .SR_HWCAP_LIMIT_MSEC 500
      100).2).devc.end_time = 100 + (500 : Int) :=
  ((C4_amended_deadline_at_config true activeRecord 500 100 true).1 rfl
    rfl).1

/-- C5: on every completion of the pending transfer the completed-sample
counter increases by exactly 1 if and only if the outcome is
`LIBUSB_TRANSFER_COMPLETED` with a full 14-byte payload, and by 0 for
every partial-payload, timeout or error completion; and the counter is
monotonically non-decreasing across all operations (completion, tick,
stop, config, start). -/
theorem C5_counter_per_completion (i : Bool) (sdi : sr_dev_inst)
    (t : TransferStatus) (l : Nat) (ok : Bool)
    (h : sdi.devc.num_samples + 1 < UINT64_CARD) :
    ((receive_transfer i sdi t l ok).sdi.devc.num_samples =
      sdi.devc.num_samples +
        (if t = .LIBUSB_TRANSFER_COMPLETED ∧ l = 14 then 1 else 0)) ∧
    (¬(t = .LIBUSB_TRANSFER_COMPLETED ∧ l = 14) →
      (receive_transfer i sdi t l ok).sdi.devc.num_samples =
        sdi.devc.num_samples) ∧
    sdi.devc.num_samples ≤
      (receive_transfer i sdi t l ok).sdi.devc.num_samples ∧
    (∀ now, (handle_events i sdi now).sdi.devc.num_samples =
      sdi.devc.num_samples) ∧
    ((hw_dev_acquisition_stop i sdi).2.devc.num_samples =
      sdi.devc.num_samples) ∧
    (∀ cap v now, ((hw_dev_config_set i sdi cap v now).2).devc.num_samples =
      sdi.devc.num_samples) ∧
    (∀ subOk, (hw_dev_acquisition_start i sdi subOk).sdi.devc.num_samples =
      sdi.devc.num_samples) := by
  have hmain : (receive_transfer i sdi t l ok).sdi.devc.num_samples =
      sdi.devc.num_samples +
        (if t = .LIBUSB_TRANSFER_COMPLETED ∧ l = 14 then 1 else 0) := by
    rw [receive_transfer_sdi_devc, outcome_state_devc]
    dsimp only
    split_ifs with hc
    · rw [Nat.mod_eq_of_lt h]
    · rfl
  refine ⟨hmain, fun hn => ?_, ?_,
    fun now => by rw [handle_events_sdi_devc],
    by rw [stop_snd_devc],
    fun cap v now => config_set_snd_num i sdi cap v now,
    fun subOk => by rw [start_sdi]⟩
  · rw [hmain, if_neg hn, Nat.add_zero]
  · rw [hmain]
    exact Nat.le_add_right _ _

/-- Witness for C5 at a concrete full-payload completion. -/
theorem C5_counter_per_completion_witness :
    (receive_transfer true activeRecord .LIBUSB_TRANSFER_COMPLETED 14
      true).sdi.devc.num_samples =
      activeRecord.devc.num_samples +
        (if (TransferStatus.LIBUSB_TRANSFER_COMPLETED =
            .LIBUSB_TRANSFER_COMPLETED ∧ (14 : Nat) = 14) then 1 else 0) :=
  (C5_counter_per_completion true activeRecord .LIBUSB_TRANSFER_COMPLETED
    14 true (by decide)).1

/-- C1: within one invocation of the completion handler the transfer's
14-byte buffer is freed at most once, it is freed exactly when the
invocation is terminal (the transfer is not resubmitted), and whenever the
status at the handler's branch point is Stopping the free happens in the
Stopping-cleanup branch (the only path that frees the buffer when the
acquisition is stopping); across any whole run of an acquisition the
cumulative number of frees of the outstanding transfer's buffer is 0 while
the transfer is outstanding and exactly 1 after its terminal completion —
never before, never twice. -/
theorem C1_buffer_freed_exactly_once :
    (∀ (i : Bool) (sdi : sr_dev_inst) (t : TransferStatus) (l : Nat)
        (ok : Bool),
      (receive_transfer i sdi t l ok).bufferFrees ≤ 1 ∧
      ((receive_transfer i sdi t l ok).bufferFrees = 1 ↔
        (receive_transfer i sdi t l ok).resubmitted = false) ∧
      ((receive_transfer i sdi t l ok).statusAtBranch = .SR_ST_STOPPING →
        (receive_transfer i sdi t l ok).freeSite =
          some .onStoppingCleanup)) ∧
    (∀ (i : Bool) (sdi : sr_dev_inst) (es : List Event),
      (runAcq i (startedState sdi) es).bufferFrees =
        (if (runAcq i (startedState sdi) es).transferOutstanding then 0
         else 1)) := by
  constructor
  · intro i sdi t l ok
    rw [receive_transfer_branches]
    split_ifs with h1 h2 <;> simp_all
  · intro i sdi es
    have hinv := runAcq_inv i
      (fun s => s.bufferFrees =
        (if s.transferOutstanding then 0 else 1)) ?step es
      (startedState sdi) rfl
    · exact hinv
    case step =>
      intro s e hP
      cases e with
      | tick now => rw [step_tick]; exact hP
      | complete t l ok =>
          cases ho : s.transferOutstanding with
          | false => rw [step_complete_done i s t l ok ho]; exact hP
          | true =>
              rw [step_complete_outstanding i s t l ok ho]
              dsimp only
              rw [receive_transfer_frees_resub]
              rw [ho] at hP
              rw [hP]
              cases (receive_transfer i s.sdi t l ok).resubmitted <;> simp

/-- Witness for C1: a completion arriving while the device is already
Stopping frees the buffer through the Stopping-cleanup branch. -/
theorem C1_buffer_freed_exactly_once_witness :
    (receive_transfer true stoppingRecord .LIBUSB_TRANSFER_TIMED_OUT 0
      true).freeSite = some .onStoppingCleanup :=
  (C1_buffer_freed_exactly_once.1 true stoppingRecord
    .LIBUSB_TRANSFER_TIMED_OUT 0 true).2.2 (by decide)

/-- C9: a stored time budget of 0 or sample budget of 0 behaves as unset
(both start at 0 from `g_try_malloc0`): with both limits zero the deadline
check in `handle_events` never fires (for any tick time, whatever
`end_time` holds) and the sample-limit check in `receive_transfer` never
fires (whatever the counter), so across any run whose events carry no
device-removal and no resubmission failure the device stays Active —
the acquisition runs until explicitly stopped. -/
theorem C9_zero_budget_never_stops (sdi : sr_dev_inst)
    (h0m : sdi.devc.limit_msec = 0) (h0s : sdi.devc.limit_samples = 0)
    (hA : sdi.status = .SR_ST_ACTIVE) :
    (∀ now, handle_events true sdi now =
      { sdi := sdi, packets := [], sourcesRemoved := false }) ∧
    (∀ t l, t ≠ .LIBUSB_TRANSFER_NO_DEVICE →
      (receive_transfer true sdi t l true).sdi.status = .SR_ST_ACTIVE ∧
      (receive_transfer true sdi t l true).resubmitted = true) ∧
    (∀ es : List Event, (∀ e ∈ es, benignEvent e) →
      (runAcq true (startedState sdi) es).sdi.status = .SR_ST_ACTIVE) := by
  refine ⟨fun now => ?_, fun t l ht => ?_, fun es hb => ?_⟩
  · have hd : deadline_state true sdi now = sdi := by
      unfold deadline_state
      simp [h0m]
    rw [handle_events_branches, hd, if_neg (by rw [hA]; intro hc; cases hc)]
  · have hout : (outcome_state true sdi t l).status = .SR_ST_ACTIVE := by
      rw [outcome_state_zero_limit_status true sdi t l h0s ht, hA]
    rw [receive_transfer_branches, if_pos hout]
    exact ⟨by simp [hout], by simp⟩
  · have hinv := runAcq_inv_filtered true
      (fun s => s.sdi.status = .SR_ST_ACTIVE ∧
        s.sdi.devc.limit_msec = 0 ∧ s.sdi.devc.limit_samples = 0)
      benignEvent ?step es hb (startedState sdi) ⟨hA, h0m, h0s⟩
    · exact hinv.1
    case step =>
      intro s e hq hP
      cases e with
      | tick now =>
          rw [step_tick]
          have hd : deadline_state true s.sdi now = s.sdi := by
            unfold deadline_state
            simp [hP.2.1]
          rw [handle_events_branches, hd,
            if_neg (by rw [hP.1]; intro hc; cases hc)]
          exact hP
      | complete t l ok =>
          cases ho : s.transferOutstanding with
          | false => rw [step_complete_done true s t l ok ho]; exact hP
          | true =>
              rw [step_complete_outstanding true s t l ok ho]
              have hout : (outcome_state true s.sdi t l).status =
                  .SR_ST_ACTIVE := by
                rw [outcome_state_zero_limit_status true s.sdi t l hP.2.2
                  hq.1, hP.1]
              rw [receive_transfer_branches, if_pos hout, if_pos hq.2]
              refine ⟨hout, ?_, ?_⟩ <;>
                simp [outcome_state_devc, hP.2.1, hP.2.2]

/-- Witness for C9: with zero budgets, a timeout completion followed by a
late tick leaves the device Active. -/
theorem C9_zero_budget_never_stops_witness :
    (runAcq true (startedState activeRecord)
      [.complete .LIBUSB_TRANSFER_TIMED_OUT 0 true,
       .tick 999999]).sdi.status = .SR_ST_ACTIVE :=
  (C9_zero_budget_never_stops activeRecord rfl rfl rfl).2.2 _
    (by intro e he; fin_cases he <;> simp [benignEvent])

lemma full_completion_step (S : AcqState) (N : Nat)
    (hN64 : N < UINT64_CARD) (hlim : S.sdi.devc.limit_samples = N)
    (hlt : S.sdi.devc.num_samples < N)
    (hA : S.sdi.status = .SR_ST_ACTIVE)
    (hout : S.transferOutstanding = true) :
    (step true S
        (.complete .LIBUSB_TRANSFER_COMPLETED 14 true)).sdi.devc.num_samples
      = S.sdi.devc.num_samples + 1 ∧
    ((step true S
        (.complete .LIBUSB_TRANSFER_COMPLETED 14 true)).sdi.status =
        .SR_ST_STOPPING ↔
      S.sdi.devc.num_samples + 1 = N) := by
  have hmod : (S.sdi.devc.num_samples + 1) % UINT64_CARD =
      S.sdi.devc.num_samples + 1 := Nat.mod_eq_of_lt (by omega)
  rw [step_complete_outstanding true S _ _ _ hout]
  dsimp only
  constructor
  · rw [receive_transfer_sdi_devc, outcome_state_devc]
    dsimp only
    rw [if_pos ⟨rfl, rfl⟩, hmod]
  · constructor
    · intro hstop
      by_contra hne
      have hcond : ¬(S.sdi.devc.limit_samples ≠ 0 ∧
          (S.sdi.devc.num_samples + 1) % UINT64_CARD ≥
            S.sdi.devc.limit_samples) := by
        rw [hlim, hmod]
        push_neg
        intro _
        omega
      have hOS : (outcome_state true S.sdi .LIBUSB_TRANSFER_COMPLETED
          14).status = .SR_ST_ACTIVE := by
        rw [outcome_state_completed14_eq, if_neg hcond]
        exact hA
      rw [receive_transfer_branches, if_pos hOS, if_pos rfl] at hstop
      dsimp only at hstop
      rw [hOS] at hstop
      cases hstop
    · intro hEq
      have hcond : S.sdi.devc.limit_samples ≠ 0 ∧
          (S.sdi.devc.num_samples + 1) % UINT64_CARD ≥
            S.sdi.devc.limit_samples := by
        rw [hlim, hmod, hEq]
        exact ⟨by omega, le_refl N⟩
      have hOS : (outcome_state true S.sdi .LIBUSB_TRANSFER_COMPLETED
          14).status = .SR_ST_STOPPING := by
        rw [outcome_state_completed14_eq, if_pos hcond,
          stop_snd_active _ (by simpa using hA)]
      rw [receive_transfer_branches,
        if_neg (by rw [hOS]; intro hc; cases hc)]
      dsimp only
      exact hOS

/-- C6 counterexample: the claim quantifies over every execution in which
a sample budget N > 0 is configured, but limits may be configured while
the device is Active with a nonzero counter (mid-acquisition, or on a
record carrying a previous run's total, since `start` does not reset —
see C3).  Concretely: on `staleRecord` (Active, counter 5) configuring a
sample budget of 3 succeeds and triggers no stop although the counter (5)
already exceeds N (3); the next full-payload completion then raises the
counter to 6 and only then flips the status to Stopping — the stop fires
at 6, not at a tick where the counter first reaches N = 3, and the
counter exceeded N before any stop was triggered. -/
theorem C6_counterexample :
    ((hw_dev_config_set true staleRecord .SR_HWCAP_LIMIT_SAMPLES 3
      0).2).devc.limit_samples = 3 ∧
    ((hw_dev_config_set true staleRecord .SR_HWCAP_LIMIT_SAMPLES 3
      0).2).status = .SR_ST_ACTIVE ∧
    ((hw_dev_config_set true staleRecord .SR_HWCAP_LIMIT_SAMPLES 3
      0).2).devc.num_samples = 5 ∧
    (5 : Nat) > 3 ∧
    (receive_transfer true
      ((hw_dev_config_set true staleRecord .SR_HWCAP_LIMIT_SAMPLES 3 0).2)
      .LIBUSB_TRANSFER_COMPLETED 14 true).sdi.devc.num_samples = 6 ∧
    (receive_transfer true
      ((hw_dev_config_set true staleRecord .SR_HWCAP_LIMIT_SAMPLES 3 0).2)
      .LIBUSB_TRANSFER_COMPLETED 14 true).sdi.status = .SR_ST_STOPPING ∧
    (6 : Nat) ≠ 3 := by
  decide

/-- C6 (amended): provided the acquisition begins with the
completed-sample counter at zero and the sample budget N > 0 already
stored (and the budget is not reconfigured during the run), across any
sequence of completions and ticks the counter never exceeds N; and from
any reachable state that is still Active with the transfer outstanding, a
full-payload successful completion (with resubmission succeeding,
isolating the sample-limit trigger) increments the counter by one and
triggers a stop (status becomes Stopping) exactly when the counter
thereby first reaches N.  Without these provisos the counter can exceed N
with no stop, and the stop fires on the first full completion past N (see
the counterexample). -/
theorem C6_sample_budget (sdi : sr_dev_inst) (N : Nat) (hN : 0 < N)
    (hN64 : N < UINT64_CARD) (hlim : sdi.devc.limit_samples = N)
    (h0 : sdi.devc.num_samples = 0) (es : List Event) :
    (runAcq true (startedState sdi) es).sdi.devc.num_samples ≤ N ∧
    ((runAcq true (startedState sdi) es).sdi.status = .SR_ST_ACTIVE →
      (runAcq true (startedState sdi) es).transferOutstanding = true →
      ((step true (runAcq true (startedState sdi) es)
          (.complete .LIBUSB_TRANSFER_COMPLETED 14
            true)).sdi.devc.num_samples =
        (runAcq true (startedState sdi) es).sdi.devc.num_samples + 1 ∧
      ((step true (runAcq true (startedState sdi) es)
          (.complete .LIBUSB_TRANSFER_COMPLETED 14 true)).sdi.status =
          .SR_ST_STOPPING ↔
        (runAcq true (startedState sdi) es).sdi.devc.num_samples + 1 =
          N))) := by
  have hQ := runAcq_inv true
    (fun s => s.sdi.devc.limit_samples = N ∧
      s.sdi.devc.num_samples ≤ N ∧
      (s.sdi.devc.num_samples = N → s.transferOutstanding = false)) ?step
    es (startedState sdi) ?base
  · refine ⟨hQ.2.1, fun hA hout => ?_⟩
    have hlt : (runAcq true (startedState sdi) es).sdi.devc.num_samples <
        N := by
      rcases Nat.lt_or_ge (runAcq true (startedState sdi)
        es).sdi.devc.num_samples N with h | h
      · exact h
      · have hEq : (runAcq true (startedState sdi)
            es).sdi.devc.num_samples = N := le_antisymm hQ.2.1 h
        rw [hQ.2.2 hEq] at hout
        cases hout
    exact full_completion_step _ N hN64 hQ.1 hlt hA hout
  case base =>
    refine ⟨hlim, ?_, fun hEq => ?_⟩
    · show sdi.devc.num_samples ≤ N
      omega
    · exfalso
      have hEq2 : sdi.devc.num_samples = N := hEq
      omega
  case step =>
    intro s e hP
    obtain ⟨hlimP, hleP, houtP⟩ := hP
    cases e with
    | tick now =>
        rw [step_tick]
        refine ⟨?_, ?_, ?_⟩ <;> dsimp only <;>
          rw [handle_events_sdi_devc] <;> assumption
    | complete t l ok =>
        cases ho : s.transferOutstanding with
        | false =>
            rw [step_complete_done true s t l ok ho]
            exact ⟨hlimP, hleP, houtP⟩
        | true =>
            have hlt : s.sdi.devc.num_samples < N := by
              rcases Nat.lt_or_ge s.sdi.devc.num_samples N with h | h
              · exact h
              · have hEq : s.sdi.devc.num_samples = N :=
                  le_antisymm hleP h
                rw [houtP hEq] at ho
                cases ho
            rw [step_complete_outstanding true s t l ok ho]
            dsimp only
            refine ⟨?_, ?_, ?_⟩ <;>
              rw [receive_transfer_sdi_devc, outcome_state_devc] <;>
              dsimp only
            · exact hlimP
            · split_ifs with hc
              · rw [Nat.mod_eq_of_lt (by omega)]
                omega
              · exact hleP
            · split_ifs with hc
              · intro hEq
                rw [Nat.mod_eq_of_lt (by omega)] at hEq
                obtain ⟨hT, hL⟩ := hc
                subst hT
                subst hL
                apply receive_transfer_not_active_resub
                apply outcome_state_limit_hit
                · rw [hlimP]
                  omega
                · rw [Nat.mod_eq_of_lt (by omega), hlimP, hEq]
              · intro hEq
                exact absurd hEq (by omega)

/-- Witness for C6's amended theorem: budget 3, counter starting at zero,
two full completions already counted; the third full completion raises
the counter to 3 and triggers the stop. -/
theorem C6_sample_budget_witness :
    (runAcq true (startedState budget3Record)
      [.complete .LIBUSB_TRANSFER_COMPLETED 14 true,
       .complete .LIBUSB_TRANSFER_COMPLETED 14
         true]).sdi.devc.num_samples ≤ 3 ∧
    (step true (runAcq true (startedState budget3Record)
      [.complete .LIBUSB_TRANSFER_COMPLETED 14 true,
       .complete .LIBUSB_TRANSFER_COMPLETED 14 true])
      (.complete .LIBUSB_TRANSFER_COMPLETED 14 true)).sdi.status =
      .SR_ST_STOPPING := by
  have h := C6_sample_budget budget3Record 3 (by decide) (by decide) rfl
    rfl [.complete .LIBUSB_TRANSFER_COMPLETED 14 true,
      .complete .LIBUSB_TRANSFER_COMPLETED 14 true]
  refine ⟨h.1, ?_⟩
  have h2 := h.2 (by decide) (by decide)
  exact h2.2.mpr (by decide)

/-- C8: within one acquisition the session sink receives, in order, one
header ("begin") packet and one channel-metadata packet reporting exactly
1 analog channel — both emitted by `start` before the first transfer
submission is even attempted, hence each exactly once and before the first
transfer — followed (the driver never pushes sample payloads, which is an
allowed count of zero) by exactly one `SR_DF_END` marker, emitted precisely
when the state machine has reached Inactive (Idle) after Stopping: along
any event sequence the trace is the header packet, the metadata packet,
and then `SR_DF_END` exactly once if the device has reached Inactive and
no `SR_DF_END` otherwise. -/
theorem C8_session_packet_order (sdi : sr_dev_inst)
    (hA : sdi.status = .SR_ST_ACTIVE) (hopen : sdi.devhdl_open = true)
    (es : List Event) :
    (∀ ok, (hw_dev_acquisition_start true sdi ok).packets =
      [.SR_DF_HEADER 1, .SR_DF_META_ANALOG 1]) ∧
    (runAcq true (startedState sdi) es).trace =
      [.SR_DF_HEADER 1, .SR_DF_META_ANALOG 1] ++
        (if (runAcq true (startedState sdi) es).sdi.status =
            .SR_ST_INACTIVE then [.SR_DF_END] else []) := by
  constructor
  · intro ok
    cases ok <;> rfl
  · have hP := runAcq_inv true
      (fun s => ((s.sdi.status = .SR_ST_ACTIVE ∨
          s.sdi.status = .SR_ST_STOPPING) → s.sdi.devhdl_open = true) ∧
        s.trace = [.SR_DF_HEADER 1, .SR_DF_META_ANALOG 1] ++
          (if s.sdi.status = .SR_ST_INACTIVE then [.SR_DF_END] else []))
      ?step es (startedState sdi) ?base
    · exact hP.2
    case base =>
      refine ⟨fun _ => hopen, ?_⟩
      have h1 : (startedState sdi).sdi = sdi := rfl
      have h2 : (startedState sdi).trace =
          [.SR_DF_HEADER 1, .SR_DF_META_ANALOG 1] := rfl
      rw [h2, h1, hA]
      simp
    case step =>
      intro s e hP
      obtain ⟨hdl, htr⟩ := hP
      cases e with
      | tick now =>
          rw [step_tick, handle_events_branches]
          by_cases hd : (deadline_state true s.sdi now).status =
              .SR_ST_STOPPING
          · rw [if_pos hd]
            have hs_as : s.sdi.status = .SR_ST_ACTIVE ∨
                s.sdi.status = .SR_ST_STOPPING := by
              rcases deadline_state_status_or true s.sdi now with h | h
              · right
                rw [← h]
                exact hd
              · left
                exact h.1
            have hopen_d : (deadline_state true s.sdi
                now).devhdl_open = true := by
              rw [deadline_state_devhdl]
              exact hdl hs_as
            have hclose : (hw_dev_close true (deadline_state true s.sdi
                now)).2 = { deadline_state true s.sdi now with
                  devhdl_open := false, status := .SR_ST_INACTIVE } := by
              rw [hw_dev_close_eq]
              simp [hopen_d]
            constructor
            · dsimp only
              rw [hclose]
              intro h
              rcases h with h | h <;> cases h
            · dsimp only
              rw [hclose, htr]
              have hsnot : s.sdi.status ≠ .SR_ST_INACTIVE := by
                rcases hs_as with h | h <;> rw [h] <;> intro hc <;>
                  cases hc
              rw [if_neg hsnot, if_pos rfl]
              simp
          · rw [if_neg hd]
            have hds : (deadline_state true s.sdi now).status =
                s.sdi.status := by
              rcases deadline_state_status_or true s.sdi now with h | h
              · exact h
              · exact absurd h.2 hd
            constructor
            · dsimp only
              intro h
              rw [deadline_state_devhdl]
              apply hdl
              rw [← hds]
              exact h
            · dsimp only
              rw [hds, htr]
              simp
      | complete t l ok =>
          cases ho : s.transferOutstanding with
          | false =>
              rw [step_complete_done true s t l ok ho]
              exact ⟨hdl, htr⟩
          | true =>
              rw [step_complete_outstanding true s t l ok ho]
              have hiff : ((receive_transfer true s.sdi t l
                  ok).sdi.status = .SR_ST_INACTIVE) ↔
                  (s.sdi.status = .SR_ST_INACTIVE) := by
                rcases receive_transfer_status_or true s.sdi t l ok
                  with hr | hr
                · rw [hr]
                · constructor
                  · intro h2
                    rw [hr.2] at h2
                    cases h2
                  · intro h2
                    rw [h2] at hr
                    exact absurd hr.1 (by intro hc; cases hc)
              constructor
              · dsimp only
                intro h
                rw [receive_transfer_sdi_devhdl]
                apply hdl
                rcases receive_transfer_status_or true s.sdi t l ok
                  with hr | hr
                · rw [← hr]
                  exact h
                · left
                  exact hr.1
              · dsimp only
                rw [htr]
                by_cases h2 : s.sdi.status = .SR_ST_INACTIVE
                · rw [if_pos h2, if_pos (hiff.mpr h2)]
                · rw [if_neg h2, if_neg (fun hc => h2 (hiff.mp hc))]

/-- Witness for C8: a device-removal completion followed by a tick ends the
acquisition; the trace is header, metadata, end. -/
theorem C8_session_packet_order_witness :
    (runAcq true (startedState activeRecord)
      [.complete .LIBUSB_TRANSFER_NO_DEVICE 0 true, .tick 0]).trace =
      [.SR_DF_HEADER 1, .SR_DF_META_ANALOG 1] ++
        (if (runAcq true (startedState activeRecord)
            [.complete .LIBUSB_TRANSFER_NO_DEVICE 0 true,
             .tick 0]).sdi.status = .SR_ST_INACTIVE then [.SR_DF_END]
         else []) :=
  (C8_session_packet_order activeRecord rfl rfl _).2

end VictorDMM
